import Mathlib

/-!
Verification of the fingerprint enrollment/verification orchestrator of the
timesyncprofrontend repository, as a shallow embedding in Lean 4.

The embedded code:
* `src/src/services/fingerprintService.ts` — `checkConnection`, `verify`;
* `src/src/services/fingerprintApi.ts` — `FingerprintApi.checkHealth`;
* `src/src/pages/ReportsPage.tsx` — kiosk `captureFingerprint`,
  `verifyFingerprint`, `handleFingerprintScan`,
  `handleLeaveFingerPrintVerification`;
* `src/unnamed/part_001` (`FingerprintEnrollmentDialog.tsx`) — dialog state,
  `captureFingerprint`, `saveFingerprint`, `handleRetry`, the open-reset
  effect, and the retry-button guard of the error screen.

Network interactions are modelled by passing the responses of every HTTP
call the flow may issue as an explicit "world" value; a call that the
JavaScript would `await` becomes a `match` on the corresponding response
field.  A rejected fetch/JSON promise is `Except.error msg` carrying the
error message (`e.message`).  JavaScript string falsiness (`undefined` or
`""`) is encoded by the empty string; `x === true` checks on possibly
absent JSON booleans use `Option Bool`.  Scores are rationals.
-/

namespace TimeSync

/-- JavaScript `s || fallback` for strings: the empty string is falsy. -/
def jsOrStr (s fallback : String) : String :=
  if s = "" then fallback else s

/-- JavaScript `o || fallback` where `o` is a possibly absent string field. -/
def jsOrOpt (o : Option String) (fallback : String) : String :=
  match o with
  | none => fallback
  | some s => jsOrStr s fallback

/-- Body of a `POST /capture` response from the device service
(`{success, template?, error?}`).  `template = ""` encodes an absent or
empty template, both falsy in the JavaScript checks. -/
structure CaptureBody where
  success : Bool
  template : String
  error : Option String
  deriving Repr, DecidableEq

/-- Body of a `POST /match` response (`{success, matched?, score?}`). -/
structure MatchBody where
  success : Bool
  matched : Option Bool
  score : Option ℚ
  deriving Repr, DecidableEq

/-- JavaScript `data.score && data.score > 0`: the score field must be
present and truthy (nonzero) and then positive. -/
def jsScoreAndPos : Option ℚ → Bool
  | none => false
  | some s => if s = 0 then false else decide (0 < s)

/-- `fingerprintService.verify` / ReportsPage `verifyFingerprint` (the two
have identical bodies): returns `false` when the fetch throws or
`data.success` is false, else `data.matched === true || (data.score &&
data.score > 0)`. -/
def verifyMatch : Except String MatchBody → Bool
  | .error _ => false
  | .ok b =>
    if b.success = false then false
    else (b.matched == some true) || jsScoreAndPos b.score

/-- Body of the backend `GET /employees/fingerprint-template/:id` response:
HTTP `ok` flag, status code, parsed `error` field of an error body, and the
`template` field (`""` encodes absent/empty, falsy in JavaScript). -/
structure TemplateFetchBody where
  ok : Bool
  status : Nat
  error : Option String
  template : String
  deriving Repr, DecidableEq

/-- Body of the backend `POST /attendance/record` (or `POST /leaves`)
response: HTTP `ok` flag and the parsed `error` field of an error body. -/
structure RecordBody where
  ok : Bool
  error : Option String
  deriving Repr, DecidableEq

/-- ReportsPage `captureFingerprint`: forwards the template on
`data.success`, otherwise throws `data.error || 'Failed to capture
fingerprint'`; the surrounding catch rethrows `e.message || 'Capture
failed. Place finger firmly on scanner.'`. -/
def kioskCaptureFingerprint : Except String CaptureBody → Except String String
  | .error e => .error (jsOrStr e "Capture failed. Place finger firmly on scanner.")
  | .ok b =>
    if b.success = false then
      .error (jsOrStr (jsOrOpt b.error "Failed to capture fingerprint")
        "Capture failed. Place finger firmly on scanner.")
    else .ok b.template

/-- Terminal outcome of one kiosk verification-and-act attempt. -/
inductive ScanOutcome where
  | success
  | failed (msg : String)
  deriving Repr, DecidableEq

/-- Responses of the four HTTP calls a kiosk clock-in/clock-out attempt may
issue, in program order. -/
structure KioskWorld where
  capture : Except String CaptureBody
  templateFetch : Except String TemplateFetchBody
  matchResp : Except String MatchBody
  attendance : Except String RecordBody
  deriving Repr

/-- Trace of one kiosk clock-in/clock-out attempt: its outcome, whether a
capture request was issued, and whether the attendance-record write
(`POST /attendance/record`) was issued. -/
structure ScanTrace where
  result : ScanOutcome
  captureCalled : Bool
  recordEventCalled : Bool
  deriving Repr, DecidableEq

/-- ReportsPage `handleFingerprintScan`: capture, fetch the stored
template, match, then record attendance; every thrown error is caught and
shown via `e.message || 'An error occurred. Please try again.'`. -/
def handleFingerprintScan (w : KioskWorld) : ScanTrace :=
  match kioskCaptureFingerprint w.capture with
  | .error e => ⟨.failed (jsOrStr e "An error occurred. Please try again."), true, false⟩
  | .ok tmpl =>
    if tmpl = "" then
      ⟨.failed "Failed to capture fingerprint. Please try again.", true, false⟩
    else
      match w.templateFetch with
      | .error e => ⟨.failed (jsOrStr e "An error occurred. Please try again."), true, false⟩
      | .ok tr =>
        if tr.ok = false then
          if tr.status = 404 then
            ⟨.failed "No fingerprint registered. Please enroll your fingerprint first.", true, false⟩
          else
            ⟨.failed (jsOrOpt tr.error "Failed to fetch fingerprint data"), true, false⟩
        else if tr.template = "" then
          ⟨.failed "No fingerprint template found. Please enroll first.", true, false⟩
        else if verifyMatch w.matchResp = false then
          ⟨.failed "Fingerprint does not match. Please try again.", true, false⟩
        else
          match w.attendance with
          | .error e => ⟨.failed (jsOrStr e "An error occurred. Please try again."), true, true⟩
          | .ok ar =>
            if ar.ok = false then
              ⟨.failed (jsOrOpt ar.error "Failed to record attendance"), true, true⟩
            else ⟨.success, true, true⟩

/-- The kiosk scan button carries `disabled={!employee?.fingerprintEnrolled}`:
no attempt (and hence no device call) can start for a subject whose record
says `fingerprintEnrolled = false`. -/
def gatedClockScan (fingerprintEnrolled : Bool) (w : KioskWorld) : Option ScanTrace :=
  if fingerprintEnrolled then some (handleFingerprintScan w) else none

/-- Responses of the four HTTP calls a fingerprint-authorized leave
submission may issue, in program order. -/
structure LeaveWorld where
  capture : Except String CaptureBody
  templateFetch : Except String TemplateFetchBody
  matchResp : Except String MatchBody
  leaveSubmit : Except String RecordBody
  deriving Repr

/-- Trace of one leave-authorization attempt: outcome, whether a capture
request was issued, and whether the leave submission (`POST /leaves`) was
issued. -/
structure LeaveTrace where
  result : ScanOutcome
  captureCalled : Bool
  leaveSubmitCalled : Bool
  deriving Repr, DecidableEq

/-- ReportsPage `handleLeaveFingerPrintVerification`: capture, fetch the
stored template (any non-ok response throws `'No fingerprint registered'`),
match, then submit the leave request.  Unlike the clock flow it does not
test the fetched template for presence before matching. -/
def handleLeaveVerification (w : LeaveWorld) : LeaveTrace :=
  match kioskCaptureFingerprint w.capture with
  | .error e => ⟨.failed e, true, false⟩
  | .ok tmpl =>
    if tmpl = "" then ⟨.failed "Failed to capture fingerprint", true, false⟩
    else
      match w.templateFetch with
      | .error e => ⟨.failed e, true, false⟩
      | .ok tr =>
        if tr.ok = false then ⟨.failed "No fingerprint registered", true, false⟩
        else if verifyMatch w.matchResp = false then
          ⟨.failed "Fingerprint verification failed", true, false⟩
        else
          match w.leaveSubmit with
          | .error e => ⟨.failed e, true, true⟩
          | .ok lr =>
            if lr.ok = false then
              ⟨.failed (jsOrOpt lr.error "Failed to submit leave request"), true, true⟩
            else ⟨.success, true, true⟩

/-- How the device answers one `POST /capture` request: a body arriving
`afterMs` milliseconds after the request, no answer at all, or a connection
error (rejected fetch) carrying a message. -/
inductive DeviceCaptureBehavior where
  | respond (afterMs : Nat) (b : CaptureBody)
  | never
  | connectionError (msg : String)
  deriving Repr

/-- Resolved outcome of one capture request as seen by the enrollment
dialog's client: an `AbortError` when its own 15 s timer fired first, a
non-abort fetch error, or the response body. -/
inductive CaptureOutcome where
  | response (b : CaptureBody)
  | abortTimeout
  | netError (msg : String)
  deriving Repr

/-- `CAPTURE_TIMEOUT` of `FingerprintEnrollmentDialog.tsx` (ms). -/
def CAPTURE_TIMEOUT : Nat := 15000

/-- The enrollment dialog's capture request runs under an `AbortController`
whose abort fires after `CAPTURE_TIMEOUT` ms: a response that has not
arrived strictly before that moment is never seen, the await throws an
`AbortError` instead. -/
def enrollCaptureOutcome : DeviceCaptureBehavior → CaptureOutcome
  | .respond t b => if CAPTURE_TIMEOUT ≤ t then .abortTimeout else .response b
  | .never => .abortTimeout
  | .connectionError m => .netError m

/-- The kiosk's `captureFingerprint` (ReportsPage) issues its fetch with no
abort signal and no timer: a response is processed whenever it arrives no
matter how late, and a device that never answers leaves the call pending
forever (`none`: no result, no error is ever reported). -/
def kioskCaptureResolve : DeviceCaptureBehavior → Option (Except String CaptureBody)
  | .respond _ b => some (.ok b)
  | .never => none
  | .connectionError m => some (.error m)

/-- State of `FingerprintEnrollmentDialog` (the React `useState` fields the
enrollment protocol reads and writes; `templates` doubles for
`templatesRef.current`, which is kept in sync with it). -/
structure EnrollState where
  activeStep : Nat
  capturing : Bool
  saving : Bool
  templates : List String
  error : Option String
  success : Bool
  statusMessage : String
  countdown : Nat
  deriving Repr, DecidableEq

/-- Body of a `POST /enroll` (merge) response (`{success, template?, error?}`). -/
structure EnrollBody where
  success : Bool
  template : String
  error : Option String
  deriving Repr, DecidableEq

/-- Backend `POST /employees/fingerprint-enroll/:id` response: HTTP `ok`
flag and the error message the dialog extracts from a non-ok body (the
`error` JSON field, or the HTML-detection fallback text). -/
structure SaveBody where
  ok : Bool
  errorMsg : Option String
  deriving Repr, DecidableEq

/-- Responses of the HTTP calls one dialog capture step may issue: the
capture itself and — when it is the final one — the merge (`/enroll`) and
persist calls triggered by `saveFingerprint`. -/
structure EnrollWorld where
  capture : CaptureOutcome
  enrollResp : Except String EnrollBody
  saveResp : Except String SaveBody

/-- Trace of one dialog capture step: the resulting dialog state, the
template list submitted to the merge call if one was issued, and whether
the backend persist call was issued. -/
structure EnrollTrace where
  state : EnrollState
  mergeCalledWith : Option (List String)
  persistCalled : Bool
  deriving Repr, DecidableEq

/-- Dialog `saveFingerprint(capturedTemplates)`: posts the accumulated
templates to `/enroll` (merge), then persists the merged template; any
failure is caught with `setError(e.message || 'Failed to save
fingerprint')`, `setStatusMessage('')`, `setActiveStep(2)`. -/
def saveFingerprint (s : EnrollState) (caps : List String) (w : EnrollWorld) : EnrollTrace :=
  let s0 := { s with saving := true, error := none,
                     statusMessage := "Merging fingerprint templates..." }
  match w.enrollResp with
  | .error e =>
    ⟨{ s0 with error := some (jsOrStr e "Failed to save fingerprint"),
               statusMessage := "", activeStep := 2, saving := false }, some caps, false⟩
  | .ok eb =>
    if eb.success = false then
      ⟨{ s0 with error := some (jsOrStr (jsOrOpt eb.error "Failed to merge fingerprint templates")
                   "Failed to save fingerprint"),
                 statusMessage := "", activeStep := 2, saving := false }, some caps, false⟩
    else
      let s1 := { s0 with statusMessage := "Saving to database..." }
      match w.saveResp with
      | .error e =>
        ⟨{ s1 with error := some (jsOrStr e "Failed to save fingerprint"),
                   statusMessage := "", activeStep := 2, saving := false }, some caps, true⟩
      | .ok sr =>
        if sr.ok = false then
          ⟨{ s1 with error := some (jsOrStr (jsOrOpt sr.errorMsg "Failed to save fingerprint to database")
                       "Failed to save fingerprint"),
                     statusMessage := "", activeStep := 2, saving := false }, some caps, true⟩
        else
          ⟨{ s1 with success := true, saving := false,
                     statusMessage := "Fingerprint enrolled successfully!" }, some caps, true⟩

/-- Dialog `captureFingerprint`: appends the captured template on success;
when the accumulated list reaches length ≥ 3 it calls
`saveFingerprint(newTemplates)` inline; an `AbortError` (15 s timeout)
sets the dedicated timeout message, any other failure the device/fetch
error message. -/
def captureDialog (s : EnrollState) (w : EnrollWorld) : EnrollTrace :=
  let s0 := { s with capturing := true, error := none,
                     statusMessage := "Capture " ++ toString (s.templates.length + 1)
                       ++ ": Place finger on scanner..." }
  match w.capture with
  | .abortTimeout =>
    ⟨{ s0 with countdown := 0,
               error := some "Capture timeout - no finger detected. Click to try again.",
               statusMessage := "", capturing := false }, none, false⟩
  | .netError m =>
    ⟨{ s0 with countdown := 0, error := some (jsOrStr m "Failed to capture fingerprint"),
               statusMessage := "", capturing := false }, none, false⟩
  | .response b =>
    if b.success = false then
      ⟨{ s0 with countdown := 0,
                 error := some (jsOrStr (jsOrOpt b.error "Capture failed. Place finger firmly on scanner.")
                   "Failed to capture fingerprint"),
                 statusMessage := "", capturing := false }, none, false⟩
    else
      let newTemplates := s.templates ++ [b.template]
      let s1 := { s0 with countdown := 0, templates := newTemplates }
      if newTemplates.length < 3 then
        ⟨{ s1 with activeStep := newTemplates.length,
                   statusMessage := "Lift finger, then place again for next capture",
                   capturing := false }, none, false⟩
      else
        let s2 := { s1 with activeStep := 3,
                            statusMessage := "All captures complete. Saving..." }
        let t := saveFingerprint s2 newTemplates w
        ⟨{ t.state with capturing := false }, t.mergeCalledWith, t.persistCalled⟩

/-- Dialog `handleRetry` ("Start Over" button). -/
def handleRetry (s : EnrollState) : EnrollState :=
  { s with templates := [], activeStep := 0, error := none, success := false,
           statusMessage := "", countdown := 0 }

/-- The reset the dialog's `useEffect` performs whenever `open` becomes
true (the `checkScanner` call it also makes touches only the
scanner-connection fields, which are not part of the session state). -/
def dialogOpenReset (s : EnrollState) : EnrollState :=
  { s with activeStep := 0, templates := [], error := none, success := false,
           saving := false, statusMessage := "", countdown := 0 }

/-- Guard of the "Retry Capture n" button on the dialog's error screen:
rendered when the session is not successful, an error is shown,
`activeStep < 3` and at least one template is accumulated. -/
def retryCaptureOffered (s : EnrollState) : Bool :=
  !s.success && s.error.isSome && decide (s.activeStep < 3)
    && decide (0 < s.templates.length)

/-- Whether one capture attempt failed (client abort, fetch error, or a
device-reported `success:false`). -/
def captureAttemptFailed : CaptureOutcome → Bool
  | .abortTimeout => true
  | .netError _ => true
  | .response b => !b.success

/-- Health-check fetch result: rejected fetch, or a response with its HTTP
`ok` flag and the `device_opened` / `mock_mode` JSON fields (absent fields
are `none`; the `=== true` checks only accept `some true`). -/
inductive HealthFetch where
  | netError (msg : String)
  | response (ok : Bool) (device_opened : Option Bool) (mock_mode : Option Bool)
  deriving Repr

/-- `fingerprintService.checkConnection`: reports `false` on a rejected
fetch or a non-2xx response, else `data.device_opened === true ||
data.mock_mode === true`; it never throws. -/
def checkConnection : HealthFetch → Bool
  | .netError _ => false
  | .response ok d m => if ok then (d == some true) || (m == some true) else false

/-- `FingerprintApi.checkHealth`: throws `'Fingerprint service not
available'` on a non-2xx response and lets a rejected fetch propagate;
only a 2xx response returns normally (with the parsed status body, here
represented by its connection-relevant fields). -/
def apiCheckHealth : HealthFetch → Except String (Option Bool × Option Bool)
  | .netError m => .error m
  | .response ok d m =>
    if ok then .ok (d, m) else .error "Fingerprint service not available"

section ConcreteRuns

/-- A successful capture body carrying template `t`. -/
def bodyOk (t : String) : CaptureBody := ⟨true, t, none⟩

/-- Capture succeeds with template `t`; merge and persist would succeed. -/
def wCapOk (t : String) : EnrollWorld :=
  ⟨.response (bodyOk t), .ok ⟨true, "MERGED", none⟩, .ok ⟨true, none⟩⟩

/-- Capture succeeds with template `t`; the merge call reports failure. -/
def wCapOkMergeFail (t : String) : EnrollWorld :=
  ⟨.response (bodyOk t), .ok ⟨false, "", some "Failed to merge fingerprint templates"⟩,
   .ok ⟨true, none⟩⟩

/-- The dialog world whose capture request times out. -/
def wCapTimeout : EnrollWorld :=
  ⟨.abortTimeout, .ok ⟨true, "MERGED", none⟩, .ok ⟨true, none⟩⟩

/-- The dialog state right after it opens. -/
def openState : EnrollState := ⟨0, false, false, [], none, false, "", 0⟩

/-- Capture 1 of the concrete enrollment run (sample "a"). -/
def run1 : EnrollTrace := captureDialog openState (wCapOk "a")

/-- Capture 2 of the concrete enrollment run (sample "b"). -/
def run2 : EnrollTrace := captureDialog run1.state (wCapOk "b")

/-- Capture 3 of the concrete enrollment run (sample "c"); the merge call
fails, so the dialog ends in the error state with `activeStep = 2` and all
three samples retained. -/
def run3 : EnrollTrace := captureDialog run2.state (wCapOkMergeFail "c")

/-- The user clicks the offered "Retry Capture 4" button after the failed
merge; the capture succeeds with sample "d". -/
def run4 : EnrollTrace := captureDialog run3.state (wCapOk "d")

/-- Kiosk world: capture succeeds but the stored-template fetch returns
404 (subject has no stored template). -/
def wNotEnrolled : KioskWorld :=
  ⟨.ok (bodyOk "T1"), .ok ⟨false, 404, none, ""⟩, .ok ⟨true, some false, some 0⟩,
   .ok ⟨true, none⟩⟩

/-- Leave world: capture succeeds but the stored-template fetch is non-ok. -/
def wLeaveNotEnrolled : LeaveWorld :=
  ⟨.ok (bodyOk "T1"), .ok ⟨false, 404, none, ""⟩, .ok ⟨true, some false, some 0⟩,
   .ok ⟨true, none⟩⟩

/-- Kiosk world: capture and template fetch succeed, but the match call
itself fails with a network error. -/
def wMatchNetError : KioskWorld :=
  ⟨.ok (bodyOk "T1"), .ok ⟨true, 200, none, "STORED"⟩,
   .error "NetworkError when attempting to fetch resource.", .ok ⟨true, none⟩⟩

/-- Kiosk world: capture and template fetch succeed and the device reports
`{matched:false, score:0}`. -/
def wMismatch : KioskWorld :=
  ⟨.ok (bodyOk "T1"), .ok ⟨true, 200, none, "STORED"⟩,
   .ok ⟨true, some false, some 0⟩, .ok ⟨true, none⟩⟩

/-- Leave world with a `{matched:false, score:0}` match response. -/
def wLeaveMismatch : LeaveWorld :=
  ⟨.ok (bodyOk "T1"), .ok ⟨true, 200, none, "STORED"⟩,
   .ok ⟨true, some false, some 0⟩, .ok ⟨true, none⟩⟩

/-- A mid-session dialog state: awaiting capture 2 with sample "x" kept. -/
def midState : EnrollState := ⟨1, false, false, ["x"], none, false, "", 0⟩

end ConcreteRuns

/-! ## Helper lemmas -/

lemma jsScoreAndPos_iff (sc : Option ℚ) :
    jsScoreAndPos sc = true ↔ ∃ s : ℚ, sc = some s ∧ 0 < s := by
  cases sc with
  | none => simp [jsScoreAndPos]
  | some s =>
    by_cases h : s = 0
    · subst h; simp [jsScoreAndPos]
    · simp [jsScoreAndPos, h]

lemma kioskCapture_ok (cb : CaptureBody) (h : cb.success = true) :
    kioskCaptureFingerprint (.ok cb) = .ok cb.template := by
  simp [kioskCaptureFingerprint, h]

/-- Along the capture-ok / fetch-ok / template-present path, a false
verify verdict yields the mismatch trace with no attendance write. -/
lemma scan_mismatch (w : KioskWorld) (cb : CaptureBody) (tr : TemplateFetchBody)
    (hc : w.capture = .ok cb) (hcs : cb.success = true) (hct : cb.template ≠ "")
    (hf : w.templateFetch = .ok tr) (hfo : tr.ok = true) (hft : tr.template ≠ "")
    (hv : verifyMatch w.matchResp = false) :
    handleFingerprintScan w =
      ⟨.failed "Fingerprint does not match. Please try again.", true, false⟩ := by
  obtain ⟨wc, wt, wm, wa⟩ := w
  simp only at hc hf hv
  subst hc hf
  obtain ⟨cs, ct, ce⟩ := cb
  simp only at hcs hct
  subst hcs
  obtain ⟨tok, tst, terr, tt⟩ := tr
  simp only at hfo hft
  subst hfo
  simp [handleFingerprintScan, kioskCaptureFingerprint, hct, hft, hv]

/-- Along the capture-ok path, a 404 template fetch yields the
not-enrolled trace after the capture has been issued. -/
lemma scan_notEnrolled (w : KioskWorld) (cb : CaptureBody) (tr : TemplateFetchBody)
    (hc : w.capture = .ok cb) (hcs : cb.success = true) (hct : cb.template ≠ "")
    (hf : w.templateFetch = .ok tr) (hfo : tr.ok = false) (hst : tr.status = 404) :
    handleFingerprintScan w =
      ⟨.failed "No fingerprint registered. Please enroll your fingerprint first.",
       true, false⟩ := by
  obtain ⟨wc, wt, wm, wa⟩ := w
  simp only at hc hf
  subst hc hf
  obtain ⟨cs, ct, ce⟩ := cb
  simp only at hcs hct
  subst hcs
  obtain ⟨tok, tst, terr, tt⟩ := tr
  simp only at hfo hst
  subst hfo hst
  simp [handleFingerprintScan, kioskCaptureFingerprint, hct]

/-- Leave flow: a false verify verdict yields the verification-failed
trace with no leave submission. -/
lemma leave_mismatch (w : LeaveWorld) (cb : CaptureBody) (tr : TemplateFetchBody)
    (hc : w.capture = .ok cb) (hcs : cb.success = true) (hct : cb.template ≠ "")
    (hf : w.templateFetch = .ok tr) (hfo : tr.ok = true)
    (hv : verifyMatch w.matchResp = false) :
    handleLeaveVerification w =
      ⟨.failed "Fingerprint verification failed", true, false⟩ := by
  obtain ⟨wc, wt, wm, wl⟩ := w
  simp only at hc hf hv
  subst hc hf
  obtain ⟨cs, ct, ce⟩ := cb
  simp only at hcs hct
  subst hcs
  obtain ⟨tok, tst, terr, tt⟩ := tr
  simp only at hfo
  subst hfo
  simp [handleLeaveVerification, kioskCaptureFingerprint, hct, hv]

/-- Leave flow: a non-ok template fetch yields the not-registered trace
after the capture has been issued. -/
lemma leave_notEnrolled (w : LeaveWorld) (cb : CaptureBody) (tr : TemplateFetchBody)
    (hc : w.capture = .ok cb) (hcs : cb.success = true) (hct : cb.template ≠ "")
    (hf : w.templateFetch = .ok tr) (hfo : tr.ok = false) :
    handleLeaveVerification w = ⟨.failed "No fingerprint registered", true, false⟩ := by
  obtain ⟨wc, wt, wm, wl⟩ := w
  simp only at hc hf
  subst hc hf
  obtain ⟨cs, ct, ce⟩ := cb
  simp only at hcs hct
  subst hcs
  obtain ⟨tok, tst, terr, tt⟩ := tr
  simp only at hfo
  subst hfo
  simp [handleLeaveVerification, kioskCaptureFingerprint, hct]

/-! ## Claim theorems -/

/-- Claim C1.  The enrollment dialog is supposed to invoke merge with
exactly the 3 captured samples, including after a failed merge/save
followed by the retry-capture path.  Evaluating the dialog at the failing
run shows otherwise: a fresh run merges exactly `["a","b","c"]`, but the
"Retry Capture" path the error screen offers after that merge fails
appends a fourth sample and invokes merge with `["a","b","c","d"]` —
four samples, contradicting the dialog's own step list (three captures)
and `fingerprintApi.ts`'s documented `/enroll` contract of 3 templates. -/
theorem c1_merge_sample_count :
    run3.mergeCalledWith = some ["a", "b", "c"] ∧
    run4.mergeCalledWith = some ["a", "b", "c", "d"] ∧
    (run4.mergeCalledWith.getD []).length = 4 := by
  refine ⟨rfl, rfl, rfl⟩

/-- Claim C2.  After the merge failure of the concrete run, the error
screen offers the retry-capture path; taking it submits to merge a sample
set that still contains every sample `"a"`, `"b"`, `"c"` of the failed
attempt — stale samples leak into the retry.  Only the "Start Over" path
(`handleRetry`) clears the sample list. -/
theorem c2_stale_samples :
    retryCaptureOffered run3.state = true ∧
    run3.state.templates = ["a", "b", "c"] ∧
    "a" ∈ (run4.mergeCalledWith.getD []) ∧
    "b" ∈ (run4.mergeCalledWith.getD []) ∧
    "c" ∈ (run4.mergeCalledWith.getD []) ∧
    (handleRetry run3.state).templates = [] := by
  refine ⟨rfl, rfl, by decide, by decide, by decide, rfl⟩

/-- Claim C3, counterexample.  A match response with `matched = false` and
positive score `0.87` makes the verification adapter return `true` (a
match), not `false` as the claim states. -/
theorem c3_positive_score_counterexample :
    verifyMatch (.ok ⟨true, some false, some (87/100 : ℚ)⟩) = true := by
  norm_num [verifyMatch, jsScoreAndPos]

/-- Claim C3, amended.  The adapter reports a match exactly when the
response succeeded and either `matched === true` or a positive score is
present; in particular `matched=false` with a positive score is treated as
a match, and `matched=true` is always a match. -/
theorem c3_match_signal (b : MatchBody) :
    verifyMatch (.ok b) = true ↔
      b.success = true ∧
        (b.matched = some true ∨ ∃ s : ℚ, b.score = some s ∧ 0 < s) := by
  obtain ⟨su, mt, sc⟩ := b
  cases su with
  | false => simp [verifyMatch]
  | true => simp [verifyMatch, jsScoreAndPos_iff]

/-- Claim C4, counterexample.  A network error during the match call is
reported with the fingerprint-mismatch message, and the whole trace is
identical to the one produced by a genuine `matched=false` response: the
infrastructure failure is not distinguishable from an identity mismatch. -/
theorem c4_network_error_counterexample :
    (handleFingerprintScan wMatchNetError).result =
      .failed "Fingerprint does not match. Please try again." ∧
    handleFingerprintScan wMatchNetError = handleFingerprintScan wMismatch := by
  refine ⟨rfl, rfl⟩

/-- Claim C4, amended.  A device or network failure of the match call
(rejected fetch, or a `success:false` body) makes `verify` return `false`,
so the attempt is reported with exactly the mismatch outcome produced by
`matched=false` — match-step infrastructure errors are surfaced as
`FingerprintMismatch`, not as a distinct device/network failure. -/
theorem c4_match_error_collapses_to_mismatch (w : KioskWorld) (cb : CaptureBody)
    (tr : TemplateFetchBody)
    (hc : w.capture = .ok cb) (hcs : cb.success = true) (hct : cb.template ≠ "")
    (hf : w.templateFetch = .ok tr) (hfo : tr.ok = true) (hft : tr.template ≠ "")
    (hm : (∃ e, w.matchResp = .error e) ∨
      ∃ mb, w.matchResp = .ok mb ∧ mb.success = false) :
    (handleFingerprintScan w).result =
      .failed "Fingerprint does not match. Please try again." ∧
    (handleFingerprintScan w).recordEventCalled = false := by
  have hv : verifyMatch w.matchResp = false := by
    rcases hm with ⟨e, he⟩ | ⟨mb, hmb, hms⟩
    · rw [he]; rfl
    · rw [hmb]; simp [verifyMatch, hms]
  rw [scan_mismatch w cb tr hc hcs hct hf hfo hft hv]
  exact ⟨rfl, rfl⟩

/-- Claim C4, witness: the theorem applied to the concrete world whose
match call fails with a network error. -/
theorem c4_witness :
    (handleFingerprintScan wMatchNetError).result =
      .failed "Fingerprint does not match. Please try again." ∧
    (handleFingerprintScan wMatchNetError).recordEventCalled = false :=
  c4_match_error_collapses_to_mismatch wMatchNetError (bodyOk "T1")
    ⟨true, 200, none, "STORED"⟩ rfl rfl (by decide) rfl rfl (by decide)
    (Or.inl ⟨"NetworkError when attempting to fetch resource.", rfl⟩)

/-- Claim C5, counterexample.  For a subject with no stored template (the
template fetch returns 404) the clock flow does fail with the not-enrolled
message — but only after the capture request has been issued
(`captureCalled = true`), because both verification flows capture first
and fetch the stored template second; this refutes "without `capture()`
ever being called". -/
theorem c5_capture_precedes_fetch :
    (handleFingerprintScan wNotEnrolled).captureCalled = true ∧
    (handleFingerprintScan wNotEnrolled).result =
      .failed "No fingerprint registered. Please enroll your fingerprint first." ∧
    (handleLeaveVerification wLeaveNotEnrolled).captureCalled = true ∧
    (handleLeaveVerification wLeaveNotEnrolled).result =
      .failed "No fingerprint registered" := by
  refine ⟨rfl, rfl, rfl, rfl⟩

/-- Claim C5, amended.  The clock-in/out button is disabled for a subject
whose record says `fingerprintEnrolled = false`, so no attempt (and no
device call) starts for them; but when the flag is set and the stored
template turns out to be missing (404 fetch), both the clock flow and the
leave flow discover this only after the capture: the attempt fails with
the not-enrolled message with `captureCalled = true` and no side-effect
write issued. -/
theorem c5_not_enrolled_after_capture (w : KioskWorld) (lw : LeaveWorld) :
    gatedClockScan false w = none ∧
    (∀ cb tr, w.capture = .ok cb → cb.success = true → cb.template ≠ "" →
      w.templateFetch = .ok tr → tr.ok = false → tr.status = 404 →
      handleFingerprintScan w =
        ⟨.failed "No fingerprint registered. Please enroll your fingerprint first.",
         true, false⟩) ∧
    (∀ cb tr, lw.capture = .ok cb → cb.success = true → cb.template ≠ "" →
      lw.templateFetch = .ok tr → tr.ok = false →
      handleLeaveVerification lw =
        ⟨.failed "No fingerprint registered", true, false⟩) := by
  refine ⟨rfl, ?_, ?_⟩
  · intro cb tr hc hcs hct hf hfo hst
    exact scan_notEnrolled w cb tr hc hcs hct hf hfo hst
  · intro cb tr hc hcs hct hf hfo
    exact leave_notEnrolled lw cb tr hc hcs hct hf hfo

/-- Claim C5, witness: the amended theorem applied to the concrete
404 worlds. -/
theorem c5_witness :
    gatedClockScan false wNotEnrolled = none ∧
    handleFingerprintScan wNotEnrolled =
      ⟨.failed "No fingerprint registered. Please enroll your fingerprint first.",
       true, false⟩ ∧
    handleLeaveVerification wLeaveNotEnrolled =
      ⟨.failed "No fingerprint registered", true, false⟩ := by
  obtain ⟨h1, h2, h3⟩ := c5_not_enrolled_after_capture wNotEnrolled wLeaveNotEnrolled
  exact ⟨h1,
    h2 (bodyOk "T1") ⟨false, 404, none, ""⟩ rfl rfl (by decide) rfl rfl rfl,
    h3 (bodyOk "T1") ⟨false, 404, none, ""⟩ rfl rfl (by decide) rfl rfl⟩

/-- Claim C6, counterexample.  The kiosk's capture client has no
client-side timeout: when the device never answers, the call stays pending
forever and no capture-timeout error is ever reported, and a response
arriving after the 15 s window is still processed normally — refuting the
claim for "every capture issued by the orchestrator". -/
theorem c6_kiosk_has_no_timeout :
    kioskCaptureResolve .never = none ∧
    kioskCaptureResolve (.respond 20000 (bodyOk "T")) = some (.ok (bodyOk "T")) ∧
    enrollCaptureOutcome .never = .abortTimeout := by
  refine ⟨rfl, rfl, rfl⟩

/-- Claim C6, amended.  Only the enrollment dialog's capture enforces the
15 s client-side window: a response that is not there before the abort
fires resolves as an `AbortError`, which the dialog reports with the
dedicated timeout message, never the device-failure message; the kiosk's
capture (verification flows) issues its request with no timeout, so a late
response is processed normally and a silent device leaves it pending with
no timeout report. -/
theorem c6_timeout_distinctness (t : Nat) (b : CaptureBody)
    (s : EnrollState) (w : EnrollWorld) :
    (CAPTURE_TIMEOUT ≤ t → enrollCaptureOutcome (.respond t b) = .abortTimeout) ∧
    enrollCaptureOutcome .never = .abortTimeout ∧
    (w.capture = .abortTimeout →
      (captureDialog s w).state.error =
        some "Capture timeout - no finger detected. Click to try again." ∧
      (captureDialog s w).state.error ≠
        some "Capture failed. Place finger firmly on scanner.") ∧
    kioskCaptureResolve (.respond t b) = some (.ok b) ∧
    kioskCaptureResolve .never = none := by
  refine ⟨?_, rfl, ?_, rfl, rfl⟩
  · intro ht
    simp [enrollCaptureOutcome, ht]
  · intro hcap
    obtain ⟨wc, we, ws⟩ := w
    simp only at hcap
    subst hcap
    have h1 : (captureDialog s ⟨.abortTimeout, we, ws⟩).state.error =
        some "Capture timeout - no finger detected. Click to try again." := rfl
    refine ⟨h1, ?_⟩
    rw [h1]
    decide

/-- Claim C6, witness: the amended theorem at a concrete late response and
the concrete timed-out dialog world. -/
theorem c6_witness :
    enrollCaptureOutcome (.respond 15000 (bodyOk "T")) = .abortTimeout ∧
    (captureDialog openState wCapTimeout).state.error =
      some "Capture timeout - no finger detected. Click to try again." := by
  obtain ⟨h1, _, h3, _, _⟩ :=
    c6_timeout_distinctness 15000 (bodyOk "T") openState wCapTimeout
  exact ⟨h1 (by decide), (h3 rfl).1⟩

/-- Claim C7.  When the match step yields a non-match verdict, the clock
flow fails with the mismatch message without ever issuing the attendance
write, and the leave flow fails with the verification-failed message
without ever issuing the leave submission. -/
theorem c7_no_commit_on_mismatch (w : KioskWorld) (lw : LeaveWorld) :
    (∀ cb tr, w.capture = .ok cb → cb.success = true → cb.template ≠ "" →
      w.templateFetch = .ok tr → tr.ok = true → tr.template ≠ "" →
      verifyMatch w.matchResp = false →
      (handleFingerprintScan w).result =
        .failed "Fingerprint does not match. Please try again." ∧
      (handleFingerprintScan w).recordEventCalled = false) ∧
    (∀ cb tr, lw.capture = .ok cb → cb.success = true → cb.template ≠ "" →
      lw.templateFetch = .ok tr → tr.ok = true →
      verifyMatch lw.matchResp = false →
      (handleLeaveVerification lw).result = .failed "Fingerprint verification failed" ∧
      (handleLeaveVerification lw).leaveSubmitCalled = false) := by
  constructor
  · intro cb tr hc hcs hct hf hfo hft hv
    rw [scan_mismatch w cb tr hc hcs hct hf hfo hft hv]
    exact ⟨rfl, rfl⟩
  · intro cb tr hc hcs hct hf hfo hv
    rw [leave_mismatch lw cb tr hc hcs hct hf hfo hv]
    exact ⟨rfl, rfl⟩

/-- Claim C7, witness: the theorem applied to the concrete worlds whose
match response is `{success:true, matched:false, score:0}`. -/
theorem c7_witness :
    ((handleFingerprintScan wMismatch).result =
      .failed "Fingerprint does not match. Please try again." ∧
     (handleFingerprintScan wMismatch).recordEventCalled = false) ∧
    ((handleLeaveVerification wLeaveMismatch).result =
      .failed "Fingerprint verification failed" ∧
     (handleLeaveVerification wLeaveMismatch).leaveSubmitCalled = false) := by
  obtain ⟨h1, h2⟩ := c7_no_commit_on_mismatch wMismatch wLeaveMismatch
  exact ⟨h1 (bodyOk "T1") ⟨true, 200, none, "STORED"⟩ rfl rfl (by decide) rfl rfl
           (by decide) (by decide),
         h2 (bodyOk "T1") ⟨true, 200, none, "STORED"⟩ rfl rfl (by decide) rfl rfl
           (by decide)⟩

/-- Claim C8.  In any dialog session, a failed capture attempt (client
timeout, fetch error, or device-reported failure) leaves the accumulated
sample list and the step index unchanged and triggers no merge; a
subsequent successful capture — while fewer than two samples are
accumulated, i.e. the session is not on its final capture — appends
exactly that one sample, keeping every earlier sample as a prefix, and
advances the step to the number of samples now held. -/
theorem c8_capture_failure_frame (s : EnrollState) (w : EnrollWorld) :
    (captureAttemptFailed w.capture = true →
      (captureDialog s w).state.templates = s.templates ∧
      (captureDialog s w).state.activeStep = s.activeStep ∧
      (captureDialog s w).mergeCalledWith = none) ∧
    (∀ b : CaptureBody, w.capture = .response b → b.success = true →
      s.templates.length + 1 < 3 →
      (captureDialog s w).state.templates = s.templates ++ [b.template] ∧
      (captureDialog s w).state.activeStep = s.templates.length + 1) := by
  constructor
  · intro hfail
    cases hcap : w.capture with
    | abortTimeout => simp [captureDialog, hcap]
    | netError m => simp [captureDialog, hcap]
    | response b =>
      have hbs : b.success = false := by
        have := hfail
        rw [hcap] at this
        simpa [captureAttemptFailed] using this
      simp [captureDialog, hcap, hbs]
  · intro b hcap hbs hlen
    simp [captureDialog, hcap, hbs, List.length_append, hlen]

/-- Claim C8, witness: the theorem at the mid-session state (awaiting
capture 2 with sample "x"), once with a timed-out capture and once with a
successful retry. -/
theorem c8_witness :
    ((captureDialog midState wCapTimeout).state.templates = ["x"] ∧
     (captureDialog midState wCapTimeout).state.activeStep = 1 ∧
     (captureDialog midState wCapTimeout).mergeCalledWith = none) ∧
    ((captureDialog midState (wCapOk "y")).state.templates = ["x", "y"] ∧
     (captureDialog midState (wCapOk "y")).state.activeStep = 2) := by
  refine ⟨(c8_capture_failure_frame midState wCapTimeout).1 (by decide), ?_⟩
  have h := (c8_capture_failure_frame midState (wCapOk "y")).2 (bodyOk "y")
    rfl rfl (by decide)
  exact ⟨h.1, h.2⟩

/-- Claim C9, counterexample.  `FingerprintApi.checkHealth` — one of the
two health-check entry points the claim covers — does throw to its caller
on a non-2xx response instead of reporting `connected=false`. -/
theorem c9_api_checkhealth_throws :
    apiCheckHealth (.response false (some true) (some true)) =
      .error "Fingerprint service not available" := rfl

/-- Claim C9, amended.  The kiosk health check `checkConnection` never
throws: a rejected fetch or non-2xx response yields `false`, and a 2xx
response yields `device_opened === true || mock_mode === true`; the
`FingerprintApi.checkHealth` wrapper, by contrast, throws on a non-2xx
response and propagates fetch rejections. -/
theorem c9_health_check_fails_soft (m : String) (d mo : Option Bool) :
    checkConnection (.netError m) = false ∧
    checkConnection (.response false d mo) = false ∧
    checkConnection (.response true d mo) = ((d == some true) || (mo == some true)) ∧
    apiCheckHealth (.netError m) = .error m ∧
    apiCheckHealth (.response false d mo) = .error "Fingerprint service not available" :=
  ⟨rfl, rfl, rfl, rfl, rfl⟩

/-- Claim C10.  Whenever the dialog opens, its session state is fully
reset regardless of what the previous session left behind: the sample list
is empty, the step index is 0, and the error, success, saving, status and
countdown values are cleared. -/
theorem c10_open_resets_session (s : EnrollState) :
    (dialogOpenReset s).templates = [] ∧
    (dialogOpenReset s).activeStep = 0 ∧
    (dialogOpenReset s).error = none ∧
    (dialogOpenReset s).success = false ∧
    (dialogOpenReset s).saving = false ∧
    (dialogOpenReset s).statusMessage = "" ∧
    (dialogOpenReset s).countdown = 0 :=
  ⟨rfl, rfl, rfl, rfl, rfl, rfl, rfl⟩

end TimeSync
